import Mathlib

/-!
Formal model of the shading stage of the software 3D renderer
(src/shaders.rs): the vertex transformer and the per-body procedural
fragment shaders, embedded over exact rational arithmetic.

Embedding conventions:
- f32 scalars are modelled as rationals; f32 decimal literals keep their
  decimal value.
- The one operation in the pipeline that can produce non-finite f32 values
  is the perspective divide by the homogeneous w component; it is modelled
  with Option, where none stands for a non-finite (infinite or NaN)
  result, which then contaminates the whole transformed position.
- The f32 transcendental functions (sin, cos, asin, atan2, sqrt) used by
  four of the fragment shaders are consumed through an abstract MathFns
  record, exactly as the external noise source is consumed through a
  record of sampling functions.
- Types that the source file imports from sibling modules of the crate
  (Color, Vertex, Fragment, Uniforms, CelestialBody) are modelled from the
  spec, carrying exactly the fields the shaders read.
-/

namespace Shaders

/-- Rational 2-vector; embedding of the nalgebra_glm Vec2 used for texture
coordinates. -/
structure Vec2 where
  x : ℚ
  y : ℚ
deriving DecidableEq

/-- Rational 3-vector; embedding of nalgebra_glm Vec3. -/
structure Vec3 where
  x : ℚ
  y : ℚ
  z : ℚ
deriving DecidableEq

/-- Rational 4-vector; embedding of nalgebra_glm Vec4. -/
structure Vec4 where
  x : ℚ
  y : ℚ
  z : ℚ
  w : ℚ
deriving DecidableEq

/-- Rational 3x3 matrix (row major); embedding of nalgebra_glm Mat3. -/
structure Mat3 where
  m00 : ℚ
  m01 : ℚ
  m02 : ℚ
  m10 : ℚ
  m11 : ℚ
  m12 : ℚ
  m20 : ℚ
  m21 : ℚ
  m22 : ℚ
deriving DecidableEq

/-- Rational 4x4 matrix (row major); embedding of the nalgebra_glm Mat4
used for the model, view, projection and viewport transforms. -/
structure Mat4 where
  m00 : ℚ
  m01 : ℚ
  m02 : ℚ
  m03 : ℚ
  m10 : ℚ
  m11 : ℚ
  m12 : ℚ
  m13 : ℚ
  m20 : ℚ
  m21 : ℚ
  m22 : ℚ
  m23 : ℚ
  m30 : ℚ
  m31 : ℚ
  m32 : ℚ
  m33 : ℚ
deriving DecidableEq

/-- The 4x4 identity matrix. -/
def Mat4.identity : Mat4 :=
  ⟨1, 0, 0, 0,
   0, 1, 0, 0,
   0, 0, 1, 0,
   0, 0, 0, 1⟩

/-- Matrix-times-matrix product of two 4x4 matrices. -/
def Mat4.mul (a b : Mat4) : Mat4 where
  m00 := a.m00 * b.m00 + a.m01 * b.m10 + a.m02 * b.m20 + a.m03 * b.m30
  m01 := a.m00 * b.m01 + a.m01 * b.m11 + a.m02 * b.m21 + a.m03 * b.m31
  m02 := a.m00 * b.m02 + a.m01 * b.m12 + a.m02 * b.m22 + a.m03 * b.m32
  m03 := a.m00 * b.m03 + a.m01 * b.m13 + a.m02 * b.m23 + a.m03 * b.m33
  m10 := a.m10 * b.m00 + a.m11 * b.m10 + a.m12 * b.m20 + a.m13 * b.m30
  m11 := a.m10 * b.m01 + a.m11 * b.m11 + a.m12 * b.m21 + a.m13 * b.m31
  m12 := a.m10 * b.m02 + a.m11 * b.m12 + a.m12 * b.m22 + a.m13 * b.m32
  m13 := a.m10 * b.m03 + a.m11 * b.m13 + a.m12 * b.m23 + a.m13 * b.m33
  m20 := a.m20 * b.m00 + a.m21 * b.m10 + a.m22 * b.m20 + a.m23 * b.m30
  m21 := a.m20 * b.m01 + a.m21 * b.m11 + a.m22 * b.m21 + a.m23 * b.m31
  m22 := a.m20 * b.m02 + a.m21 * b.m12 + a.m22 * b.m22 + a.m23 * b.m32
  m23 := a.m20 * b.m03 + a.m21 * b.m13 + a.m22 * b.m23 + a.m23 * b.m33
  m30 := a.m30 * b.m00 + a.m31 * b.m10 + a.m32 * b.m20 + a.m33 * b.m30
  m31 := a.m30 * b.m01 + a.m31 * b.m11 + a.m32 * b.m21 + a.m33 * b.m31
  m32 := a.m30 * b.m02 + a.m31 * b.m12 + a.m32 * b.m22 + a.m33 * b.m32
  m33 := a.m30 * b.m03 + a.m31 * b.m13 + a.m32 * b.m23 + a.m33 * b.m33

/-- Matrix-times-vector product of a 4x4 matrix and a 4-vector. -/
def Mat4.mulVec (m : Mat4) (v : Vec4) : Vec4 where
  x := m.m00 * v.x + m.m01 * v.y + m.m02 * v.z + m.m03 * v.w
  y := m.m10 * v.x + m.m11 * v.y + m.m12 * v.z + m.m13 * v.w
  z := m.m20 * v.x + m.m21 * v.y + m.m22 * v.z + m.m23 * v.w
  w := m.m30 * v.x + m.m31 * v.y + m.m32 * v.z + m.m33 * v.w

/-- Upper-left 3x3 block of a 4x4 matrix; embedding of the nalgebra_glm
function mat4_to_mat3 used to derive the normal matrix. -/
def mat4_to_mat3 (m : Mat4) : Mat3 :=
  ⟨m.m00, m.m01, m.m02,
   m.m10, m.m11, m.m12,
   m.m20, m.m21, m.m22⟩

/-- The 3x3 identity matrix. -/
def Mat3.identity : Mat3 :=
  ⟨1, 0, 0,
   0, 1, 0,
   0, 0, 1⟩

/-- Transpose of a 3x3 matrix. -/
def Mat3.transpose (m : Mat3) : Mat3 :=
  ⟨m.m00, m.m10, m.m20,
   m.m01, m.m11, m.m21,
   m.m02, m.m12, m.m22⟩

/-- Determinant of a 3x3 matrix. -/
def Mat3.det (m : Mat3) : ℚ :=
  m.m00 * (m.m11 * m.m22 - m.m12 * m.m21)
    - m.m01 * (m.m10 * m.m22 - m.m12 * m.m20)
    + m.m02 * (m.m10 * m.m21 - m.m11 * m.m20)

/-- Inverse of a 3x3 matrix by the adjugate formula; meaningful only when
the determinant is nonzero. -/
def Mat3.inverse (m : Mat3) : Mat3 :=
  let d := m.det
  ⟨(m.m11 * m.m22 - m.m12 * m.m21) / d,
   (m.m02 * m.m21 - m.m01 * m.m22) / d,
   (m.m01 * m.m12 - m.m02 * m.m11) / d,
   (m.m12 * m.m20 - m.m10 * m.m22) / d,
   (m.m00 * m.m22 - m.m02 * m.m20) / d,
   (m.m02 * m.m10 - m.m00 * m.m12) / d,
   (m.m10 * m.m21 - m.m11 * m.m20) / d,
   (m.m01 * m.m20 - m.m00 * m.m21) / d,
   (m.m00 * m.m11 - m.m01 * m.m10) / d⟩

/-- Embedding of nalgebra try_inverse on 3x3 matrices: some inverse when
the matrix is invertible (nonzero determinant in exact arithmetic), none
when it is singular. -/
def Mat3.try_inverse (m : Mat3) : Option Mat3 :=
  if m.det = 0 then none else some m.inverse

/-- Matrix-times-vector product of a 3x3 matrix and a 3-vector. -/
def Mat3.mulVec3 (m : Mat3) (v : Vec3) : Vec3 where
  x := m.m00 * v.x + m.m01 * v.y + m.m02 * v.z
  y := m.m10 * v.x + m.m11 * v.y + m.m12 * v.z
  z := m.m20 * v.x + m.m21 * v.y + m.m22 * v.z

/-- Modelled from the spec: the crate Color type imported by the shader
module (its source file is not part of the shader module). An RGB value
whose channels live in the 0 to 255 range; channel arithmetic clamps at
the representable boundary instead of overflowing. -/
structure Color where
  r : ℚ
  g : ℚ
  b : ℚ
deriving DecidableEq

/-- Clamp one channel value into the representable range 0 to 255. -/
def clampChan (q : ℚ) : ℚ := max 0 (min 255 q)

/-- Modelled from the spec: the Color constructor. -/
def Color.new (r g b : ℚ) : Color := ⟨r, g, b⟩

/-- Modelled from the spec: linear interpolation of colors, channelwise
a + (b - a) * t; the factor t is not clamped, the resulting channels are
clamped at the representable boundary. -/
def Color.lerp (c other : Color) (t : ℚ) : Color where
  r := clampChan (c.r + (other.r - c.r) * t)
  g := clampChan (c.g + (other.g - c.g) * t)
  b := clampChan (c.b + (other.b - c.b) * t)

/-- Modelled from the spec: uniform scaling of a color by a scalar (the
Mul impl used as color * factor in the shaders), channels clamped at the
representable boundary. -/
def Color.mul (c : Color) (k : ℚ) : Color where
  r := clampChan (c.r * k)
  g := clampChan (c.g * k)
  b := clampChan (c.b * k)

/-- Modelled from the spec: the external noise source, consumed only
through its 2D and 3D sampling interface. -/
structure NoiseSource where
  get_noise_2d : ℚ → ℚ → ℚ
  get_noise_3d : ℚ → ℚ → ℚ → ℚ

/-- Abstract interface to the f32 transcendental functions used by the
fragment shaders; they are kept abstract because their exact f32 rounding
is outside the rational embedding, exactly as the noise field is. -/
structure MathFns where
  sin : ℚ → ℚ
  cos : ℚ → ℚ
  asin : ℚ → ℚ
  atan2 : ℚ → ℚ → ℚ
  sqrt : ℚ → ℚ

/-- Euclidean norm of a 3-vector through the abstract square root;
embedding of nalgebra magnitude. -/
def Vec3.magnitude (mf : MathFns) (v : Vec3) : ℚ :=
  mf.sqrt (v.x * v.x + v.y * v.y + v.z * v.z)

/-- Modelled from the spec: the closed body-kind selector enumeration
(crate type CelestialBody). -/
inductive CelestialBody where
  | Sun
  | RockyPlanet
  | GasGiant
  | CloudyPlanet
  | RingedPlanet
  | IcePlanet
  | ColorPlanet
  | Moon
  | OceanPlanet
  | AuroraPlanet
  | NaturePlanet
deriving DecidableEq

/-- Modelled from the spec: the crate Uniforms type — per-frame read-only
state holding the four transform matrices, the time scalar, the noise
source handle and the active body-kind selector. -/
structure Uniforms where
  model_matrix : Mat4
  view_matrix : Mat4
  projection_matrix : Mat4
  viewport_matrix : Mat4
  time : ℚ
  noise : NoiseSource
  current_body : CelestialBody

/-- Modelled from the spec: the crate Vertex type. The derived
transformed_position is an Option Vec3: none records that the f32
computation produced non-finite components (the perspective divide by a
zero homogeneous w yields infinities or NaN which contaminate every later
product). -/
structure Vertex where
  position : Vec3
  normal : Vec3
  tex_coords : Vec2
  color : Color
  transformed_position : Option Vec3
  transformed_normal : Vec3

/-- Modelled from the spec: the crate Fragment type, carrying the
interpolated surface position and the scalar light intensity — the two
fields the shaders read. -/
structure Fragment where
  vertex_position : Vec3
  intensity : ℚ

/-- Clip-space vector of a vertex: projection * view * model applied to
the homogeneous position, exactly the product on line 17 of
src/shaders.rs. -/
def clip_transform (vertex : Vertex) (uniforms : Uniforms) : Vec4 :=
  ((uniforms.projection_matrix.mul uniforms.view_matrix).mul
      uniforms.model_matrix).mulVec
    ⟨vertex.position.x, vertex.position.y, vertex.position.z, 1⟩

/-- Embedding of vertex_shader (src/shaders.rs lines 9 to 42). The
perspective divide divides x, y, z by w unconditionally; when w = 0 the
f32 result is non-finite, modelled as none, and the viewport product over
a non-finite vector stays non-finite. The normal matrix is the
inverse-transpose of the upper-left 3x3 block of the model matrix, with
the identity as fallback when that block is singular. -/
def vertex_shader (vertex : Vertex) (uniforms : Uniforms) : Vertex :=
  let transformed := clip_transform vertex uniforms
  let w := transformed.w
  let transformed_position : Option Vec4 :=
    if w = 0 then none
    else some ⟨transformed.x / w, transformed.y / w, transformed.z / w, 1⟩
  let screen_position :=
    transformed_position.map (fun p => uniforms.viewport_matrix.mulVec p)
  let model_mat3 := mat4_to_mat3 uniforms.model_matrix
  let normal_matrix := model_mat3.transpose.try_inverse.getD Mat3.identity
  let transformed_normal := normal_matrix.mulVec3 vertex.normal
  { position := vertex.position
    normal := vertex.normal
    tex_coords := vertex.tex_coords
    color := vertex.color
    transformed_position := screen_position.map (fun s => ⟨s.x, s.y, s.z⟩)
    transformed_normal := transformed_normal }

/-- Embedding of colorful_planet_shader (src/shaders.rs lines 60 to 104). -/
def colorful_planet_shader (mf : MathFns) (fragment : Fragment) (uniforms : Uniforms) : Color :=
  let position := fragment.vertex_position
  let time := uniforms.time * 0.01
  let color1 := Color.new 245 56 121
  let color2 := Color.new 245 140 105
  let color3 := Color.new 245 115 105
  let color4 := Color.new 245 105 238
  let color5 := Color.new 245 159 95
  let ring1_color := Color.new 245 7 123
  let ring2_color := Color.new 245 166 195
  let curve_pattern :=
    mf.sin (uniforms.noise.get_noise_3d (position.x * 5 + time * 1.5)
      (position.y * 5) (position.z * 5)) * 0.5 + 0.5
  let wave_pattern := mf.sin (position.x * 15 + position.y * 15 + time) * 0.5 + 0.5
  let final_color := color1.lerp color2 curve_pattern
  let final_color := final_color.lerp color3 (wave_pattern * 0.7)
  let final_color :=
    if curve_pattern > 0.6 then final_color.lerp color4 (curve_pattern - 0.3)
    else if wave_pattern > 0.5 then final_color.lerp color5 (wave_pattern - 0.3)
    else final_color
  let ring_pattern :=
    |uniforms.noise.get_noise_3d (position.x * 200 + time) (position.y * 200)
      (position.z * 200)|
  let final_color :=
    if ring_pattern > 0.5 then final_color.lerp ring1_color (ring_pattern - 0.5)
    else final_color.lerp ring2_color (0.5 - ring_pattern)
  final_color.mul fragment.intensity

/-- Embedding of sun_shader (src/shaders.rs lines 106 to 137). -/
def sun_shader (fragment : Fragment) (uniforms : Uniforms) : Color :=
  let position := fragment.vertex_position
  let time := uniforms.time * 0.01
  let core_color := Color.new 255 200 0
  let corona_color := Color.new 255 100 0
  let plasma1 :=
    uniforms.noise.get_noise_3d (position.x * 50 + time) (position.y * 50) (time * 2)
  let plasma2 :=
    uniforms.noise.get_noise_3d (position.x * 30 - time) (position.y * 30) time
  let corona :=
    |uniforms.noise.get_noise_3d (position.x * 10) (position.y * 10) (time * 0.5)|
  let combined_noise := (plasma1 + plasma2) * 0.5
  let final_color := core_color.lerp corona_color (|combined_noise|)
  let brightness := 1 + corona * 0.5
  (final_color.mul brightness).mul fragment.intensity

/-- Embedding of rocky_planet_shader (src/shaders.rs lines 139 to 176). -/
def rocky_planet_shader (fragment : Fragment) (uniforms : Uniforms) : Color :=
  let position := fragment.vertex_position
  let time := uniforms.time * 0.001
  let desert_color := Color.new 180 80 20
  let crater_color := Color.new 120 50 10
  let highland_color := Color.new 200 100 30
  let terrain :=
    uniforms.noise.get_noise_3d (position.x * 100) (position.y * 100) (position.z * 100)
  let craters :=
    |uniforms.noise.get_noise_3d (position.x * 200 + 1000) (position.y * 200 + 1000)
      (position.z * 200)|
  let dust :=
    uniforms.noise.get_noise_3d (position.x * 50 + time) (position.y * 50)
      (position.z * 50)
  let final_color :=
    if craters > 0.7 then crater_color
    else if terrain > 0.3 then highland_color
    else desert_color
  let dust_color := Color.new 200 150 100
  let final_color := final_color.lerp dust_color (|dust| * 0.3)
  final_color.mul fragment.intensity

/-- Surface noise sample of cloudy_planet_shader (src/shaders.rs lines 186
to 189). -/
def cloudy_surface (fragment : Fragment) (uniforms : Uniforms) : ℚ :=
  uniforms.noise.get_noise_2d (fragment.vertex_position.x * 100)
    (fragment.vertex_position.y * 100)

/-- Cloud noise sample of cloudy_planet_shader (src/shaders.rs lines 191
to 195). -/
def cloudy_clouds (fragment : Fragment) (uniforms : Uniforms) : ℚ :=
  let position := fragment.vertex_position
  let time := uniforms.time * 0.01
  uniforms.noise.get_noise_3d (position.x * 50 + time) (position.y * 50 + time * 0.5)
    time

/-- Base color ladder of cloudy_planet_shader (src/shaders.rs lines 197 to
201): land over the 0.2 surface threshold, ocean below. -/
def cloudy_base_color (fragment : Fragment) (uniforms : Uniforms) : Color :=
  if cloudy_surface fragment uniforms > 0.2 then Color.new 50 120 50
  else Color.new 30 100 200

/-- Cloud-overlay blend weight of cloudy_planet_shader (src/shaders.rs
line 204): the remap (clouds - 0.3) * 2.0 of the gating cloud sample. -/
def cloudWeight (clouds : ℚ) : ℚ := (clouds - 0.3) * 2

/-- Embedding of cloudy_planet_shader (src/shaders.rs lines 178 to 210). -/
def cloudy_planet_shader (fragment : Fragment) (uniforms : Uniforms) : Color :=
  let cloud_color := Color.new 255 255 255
  let clouds := cloudy_clouds fragment uniforms
  let base_color := cloudy_base_color fragment uniforms
  let final_color :=
    if clouds > 0.3 then base_color.lerp cloud_color (cloudWeight clouds)
    else base_color
  final_color.mul fragment.intensity

/-- Embedding of ring_shader (src/shaders.rs lines 212 to 238). -/
def ring_shader (fragment : Fragment) (uniforms : Uniforms) : Color :=
  let position := fragment.vertex_position
  let time := uniforms.time * 0.001
  let ring1_color := Color.new 180 150 120
  let ring2_color := Color.new 100 80 60
  let ring_pattern :=
    uniforms.noise.get_noise_3d (position.x * 200 + time) (position.y * 200)
      (position.z * 200)
  let density :=
    uniforms.noise.get_noise_2d (position.x * 100) (position.y * 100)
  let final_color :=
    if ring_pattern > 0 then ring1_color.lerp ring2_color (|density|)
    else ring2_color
  let alpha := (|density| * 0.5 + 0.5) * fragment.intensity
  final_color.mul alpha

/-- Embedding of ice_planet_shader (src/shaders.rs lines 240 to 355). -/
def ice_planet_shader (mf : MathFns) (fragment : Fragment) (uniforms : Uniforms) : Color :=
  let position := fragment.vertex_position
  let time := uniforms.time * 0.002
  let ice_color := Color.new 220 240 255
  let deep_ice_color := Color.new 120 180 255
  let crack_color := Color.new 80 130 255
  let crystal_glow := Color.new 230 255 255
  let aurora_ice := Color.new 160 255 220
  let deep_blue := Color.new 40 100 255
  let frost_white := Color.new 255 255 255
  let twilight_ice := Color.new 180 200 255
  let ice_base :=
    |uniforms.noise.get_noise_3d (position.x * 80 + time * 0.1) (position.y * 80)
      (position.z * 80)|
  let ice_detail :=
    |uniforms.noise.get_noise_3d (position.x * 150 + time * 0.2) (position.y * 150)
      (position.z * 150)|
  let cracks_primary :=
    |uniforms.noise.get_noise_3d (position.x * 120 + time * 0.5) (position.y * 120)
      (position.z * 120)|
  let cracks_secondary :=
    |uniforms.noise.get_noise_3d (position.x * 180 - time * 0.3) (position.y * 180)
      (position.z * 180)|
  let crystals_large :=
    |uniforms.noise.get_noise_3d (position.x * 200 + time * 0.1) (position.y * 200)
      (position.z * 200)|
  let crystals_small :=
    |uniforms.noise.get_noise_3d (position.x * 300 + time * 0.2) (position.y * 300)
      (position.z * 300)|
  let aurora_effect :=
    |mf.sin (position.x * 3 + time) * mf.cos (position.y * 3 + time * 0.7) *
      mf.sin (position.z * 3 + time * 0.5)|
  let frost_pattern :=
    |uniforms.noise.get_noise_3d (position.x * 400 + time * 0.1) (position.y * 400)
      (position.z * 400)|
  let ice_layers := ice_base * 0.7 + ice_detail * 0.3
  let final_color := ice_color.lerp deep_ice_color ice_layers
  let crack_pattern := cracks_primary * 0.6 + cracks_secondary * 0.4
  let final_color :=
    if crack_pattern > 0.65 then
      let crack_intensity := (crack_pattern - 0.65) * 2.5
      let fc := final_color.lerp crack_color crack_intensity
      if crack_pattern > 0.85 then fc.lerp deep_blue ((crack_pattern - 0.85) * 3)
      else fc
    else final_color
  let crystal_pattern := crystals_large * 0.6 + crystals_small * 0.4
  let final_color :=
    if crystal_pattern > 0.75 then
      let sparkle := mf.sin (time * 5 + Vec3.magnitude mf position * 10) * 0.5 + 0.5
      final_color.lerp crystal_glow ((crystal_pattern - 0.75) * 3 * sparkle)
    else final_color
  let final_color :=
    if aurora_effect > 0.7 then
      final_color.lerp aurora_ice ((aurora_effect - 0.7) * 1.5)
    else final_color
  let final_color :=
    if frost_pattern > 0.9 then
      let frost_intensity := (frost_pattern - 0.9) * 10
      final_color.lerp frost_white frost_intensity
    else final_color
  let depth :=
    |uniforms.noise.get_noise_3d (position.x * 2) (position.y * 2) (position.z * 2)|
  let twilight := |position.y * 2|
  let final_color :=
    if twilight > 0.8 then final_color.lerp twilight_ice ((twilight - 0.8) * 2)
    else final_color
  let depth_intensity := 1 - depth * 0.3
  (final_color.mul fragment.intensity).mul depth_intensity

/-- Embedding of moon_shader (src/shaders.rs lines 356 to 401). -/
def moon_shader (fragment : Fragment) (uniforms : Uniforms) : Color :=
  let position := fragment.vertex_position
  let time := uniforms.time * 0.001
  let base_color := Color.new 180 180 180
  let crater_color := Color.new 100 100 100
  let dust_color := Color.new 150 150 150
  let craters :=
    |uniforms.noise.get_noise_3d (position.x * 150) (position.y * 150) (position.z * 150)|
  let dust :=
    uniforms.noise.get_noise_3d (position.x * 80 + time) (position.y * 80)
      (position.z * 80)
  let surface_details :=
    |uniforms.noise.get_noise_3d (position.x * 200) (position.y * 200) (position.z * 200)|
  let final_color :=
    if craters > 0.7 then base_color.lerp crater_color ((craters - 0.7) * 2)
    else base_color
  let final_color := final_color.lerp dust_color (|dust| * 0.2)
  let final_color :=
    if surface_details > 0.8 then
      final_color.lerp crater_color ((surface_details - 0.8) * 0.5)
    else final_color
  final_color.mul fragment.intensity

/-- Embedding of ocean_planet_shader (src/shaders.rs lines 404 to 448). -/
def ocean_planet_shader (fragment : Fragment) (uniforms : Uniforms) : Color :=
  let position := fragment.vertex_position
  let time := uniforms.time * 0.01
  let deep_ocean := Color.new 0 51 102
  let shallow_water := Color.new 0 153 204
  let coral_reef := Color.new 64 224 208
  let surface_foam := Color.new 240 255 255
  let waves :=
    |uniforms.noise.get_noise_3d (position.x * 50 + time) (position.y * 50 + time * 0.5)
      (position.z * 50)|
  let depth :=
    |uniforms.noise.get_noise_3d (position.x * 30) (position.y * 30) (position.z * 30)|
  let currents :=
    |uniforms.noise.get_noise_3d (position.x * 20 - time * 0.3) (position.y * 20)
      (position.z * 20)|
  let final_color := deep_ocean
  let final_color :=
    if depth < 0.3 then final_color.lerp shallow_water (depth + waves * 0.2)
    else if depth < 0.6 then final_color.lerp coral_reef (currents * 0.5)
    else final_color
  let final_color :=
    if waves > 0.7 then final_color.lerp surface_foam ((waves - 0.7) * 0.8)
    else final_color
  final_color.mul fragment.intensity

/-- Embedding of nature_planet_shader (src/shaders.rs lines 449 to 538). -/
def nature_planet_shader (mf : MathFns) (fragment : Fragment) (uniforms : Uniforms) : Color :=
  let position := fragment.vertex_position
  let time := uniforms.time * 0.005
  let moss_green := Color.new 98 185 82
  let soil_brown := Color.new 121 85 61
  let deep_forest := Color.new 34 93 44
  let misty_fog := Color.new 180 200 195
  let rich_bark := Color.new 121 85 72
  let biolum_blue := Color.new 64 224 208
  let golden_pollen := Color.new 255 223 128
  let purple_fungi := Color.new 147 112 219
  let coral_accent := Color.new 255 127 80
  let veg_base :=
    mf.sin (uniforms.noise.get_noise_3d (position.x * 3.5 + time * 0.8)
      (position.y * 3.5) (position.z * 3.5)) * 0.5 + 0.5
  let veg_detail :=
    mf.sin (uniforms.noise.get_noise_3d (position.x * 8 + time * 0.4)
      (position.y * 8 + time * 0.3) (position.z * 8)) * 0.5 + 0.5
  let vegetation_pattern := veg_base * 0.7 + veg_detail * 0.3
  let latitude := mf.asin position.y
  let biome_mix := mf.cos (latitude * 3) * 0.5 + 0.5
  let terrain_spiral :=
    |mf.sin (position.x * 7 + time * 1.2) * mf.cos (position.y * 7 + time) *
      mf.sin (position.z * 7 + time * 0.8)|
  let line_pattern1 :=
    mf.sin (position.x * 10 + position.z * 5 + time * 1.5) * 0.5 + 0.5
  let line_pattern2 :=
    mf.cos (position.y * 15 + position.x * 7 + time * 1.2) * 0.5 + 0.5
  let river_pattern :=
    |uniforms.noise.get_noise_3d (position.x * 5 + time * 0.2) (position.y * 5)
      (position.z * 5)|
  let final_color := moss_green.lerp deep_forest vegetation_pattern
  let final_color := final_color.lerp soil_brown (biome_mix * 0.4)
  let final_color :=
    if terrain_spiral > 0.4 then
      final_color.lerp rich_bark ((terrain_spiral - 0.4) * 0.8)
    else final_color
  let final_color :=
    if line_pattern1 > 0.7 then
      final_color.lerp purple_fungi ((line_pattern1 - 0.7) * 1.3)
    else final_color
  let final_color :=
    if line_pattern2 > 0.6 then
      final_color.lerp coral_accent ((line_pattern2 - 0.6) * 0.8)
    else final_color
  let biolum_pattern := |mf.sin (Vec3.magnitude mf position * 8 + time)|
  let final_color :=
    if biolum_pattern > 0.8 then
      final_color.lerp biolum_blue ((biolum_pattern - 0.8) * 2)
    else final_color
  let pollen :=
    |uniforms.noise.get_noise_3d (position.x * 20 + time * 2)
      (position.y * 20 + time * 1.5) (position.z * 20)|
  let final_color :=
    if pollen > 0.93 then
      final_color.lerp golden_pollen ((pollen - 0.93) * 15)
    else final_color
  let final_color :=
    if river_pattern < 0.1 then
      let water_depth := max (river_pattern * 10) 0
      final_color.lerp biolum_blue (1 - water_depth)
    else final_color
  let depth_effect :=
    |uniforms.noise.get_noise_3d (position.x * 1.8 + time * 0.1) (position.y * 1.8)
      (position.z * 1.8)|
  let fog_intensity := mf.sin (time * 0.5) * 0.1 + 0.3
  let final_color := final_color.lerp misty_fog (depth_effect * fog_intensity)
  let height_intensity := mf.sin (position.y * 2) * 0.1 + 1
  (final_color.mul fragment.intensity).mul height_intensity

/-- Embedding of aurora_planet_shader (src/shaders.rs lines 540 to 613). -/
def aurora_planet_shader (mf : MathFns) (fragment : Fragment) (uniforms : Uniforms) : Color :=
  let position := fragment.vertex_position
  let time := uniforms.time * 0.01
  let pink_base := Color.new 255 84 180
  let purple_flow := Color.new 144 97 255
  let lavender_mist := Color.new 210 158 255
  let cyan_glow := Color.new 99 231 255
  let deep_blue := Color.new 2 119 188
  let neon_pink := Color.new 255 20 147
  let electric_blue := Color.new 45 226 230
  let golden_glow := Color.new 255 215 0
  let aurora_base :=
    mf.sin (uniforms.noise.get_noise_3d (position.x * 3.5 + time * 0.6)
      (position.y * 3.5 + time * 0.4) (position.z * 3.5)) * 0.5 + 0.5
  let aurora_detail :=
    mf.sin (uniforms.noise.get_noise_3d (position.x * 8 + time * 0.3)
      (position.y * 8 + time * 0.2) (position.z * 8)) * 0.5 + 0.5
  let aurora_pattern := aurora_base * 0.7 + aurora_detail * 0.3
  let wave_primary :=
    mf.cos (position.x * 15 + position.y * 15 + time * 4) * 0.5 + 0.5
  let wave_secondary :=
    mf.sin (position.x * 25 - position.y * 25 + time * 3) * 0.5 + 0.5
  let wave_lines := wave_primary * 0.6 + wave_secondary * 0.4
  let final_color := pink_base.lerp purple_flow aurora_pattern
  let final_color :=
    if wave_lines > 0.6 then
      final_color.lerp cyan_glow ((wave_lines - 0.6) * 1.8)
    else final_color
  let spiral :=
    (mf.cos (mf.atan2 position.x position.y * 5 + time * 2) * 0.5 + 0.5) *
      |mf.sin (Vec3.magnitude mf position * 4)|
  let final_color :=
    if spiral > 0.7 then
      final_color.lerp electric_blue ((spiral - 0.7) * 1.5)
    else final_color
  let sparkle :=
    |uniforms.noise.get_noise_3d (position.x * 30 + time * 2)
      (position.y * 30 + time * 2) (position.z * 30)|
  let final_color :=
    if sparkle > 0.95 then
      final_color.lerp golden_glow ((sparkle - 0.95) * 20)
    else final_color
  let circle_pattern := |mf.sin (Vec3.magnitude mf position * 8 + time * 1.5)|
  let final_color :=
    if circle_pattern > 0.5 then
      final_color.lerp lavender_mist ((circle_pattern - 0.5) * 1.5)
    else final_color
  let neon_curve :=
    |mf.sin (position.x * 12 + time) * mf.cos (position.y * 12 + time) *
      mf.sin (position.z * 12 + time * 0.5)|
  let final_color :=
    if neon_curve > 0.7 then
      final_color.lerp neon_pink ((neon_curve - 0.7) * 1.8)
    else final_color
  let depth :=
    |uniforms.noise.get_noise_3d (position.x * 2 + time * 0.1)
      (position.y * 2 + time * 0.1) (position.z * 2)|
  let final_color := final_color.lerp deep_blue (depth * 0.5)
  (final_color.mul fragment.intensity).mul 1.2

/-- Primary band noise sample of gas_giant_shader (src/shaders.rs lines
628 to 632). -/
def gas_giant_bands (fragment : Fragment) (uniforms : Uniforms) : ℚ :=
  let position := fragment.vertex_position
  let time := uniforms.time * 0.005
  uniforms.noise.get_noise_3d (position.x * 50 + time) (position.y * 15 + time * 0.2)
    (position.z * 50)

/-- Secondary band noise sample of gas_giant_shader (src/shaders.rs lines
634 to 638). -/
def gas_giant_secondary_bands (fragment : Fragment) (uniforms : Uniforms) : ℚ :=
  let position := fragment.vertex_position
  let time := uniforms.time * 0.005
  uniforms.noise.get_noise_3d (position.x * 25 + time * 0.5)
    (position.y * 10 + time * 0.1) (position.z * 25)

/-- Storm noise sample of gas_giant_shader (src/shaders.rs lines 641 to
645). -/
def gas_giant_storm (fragment : Fragment) (uniforms : Uniforms) : ℚ :=
  let position := fragment.vertex_position
  let time := uniforms.time * 0.005
  |uniforms.noise.get_noise_3d ((position.x + 0.5) * 150) ((position.y + 0.5) * 150)
    time|

/-- Turbulence noise sample of gas_giant_shader (src/shaders.rs lines 647
to 651). -/
def gas_giant_turbulence (fragment : Fragment) (uniforms : Uniforms) : ℚ :=
  let position := fragment.vertex_position
  let time := uniforms.time * 0.005
  |uniforms.noise.get_noise_3d (position.x * 100 + time * 2) (position.y * 100)
    (position.z * 100)|

/-- Base band color ladder of gas_giant_shader (src/shaders.rs lines 654
to 660). -/
def gas_giant_base_band_color (fragment : Fragment) (uniforms : Uniforms) : Color :=
  if gas_giant_bands fragment uniforms > 0.2 then Color.new 255 225 190
  else if gas_giant_secondary_bands fragment uniforms > 0 then Color.new 210 160 110
  else Color.new 180 130 90

/-- Color of gas_giant_shader before the final turbulence blend
(src/shaders.rs lines 662 to 666): the storm overlay replaces the base
band color only when the storm sample exceeds 0.5 and the fragment lies in
the open positive-x positive-y quadrant. -/
def gas_giant_pre_turbulence (fragment : Fragment) (uniforms : Uniforms) : Color :=
  if gas_giant_storm fragment uniforms > 0.5 ∧ fragment.vertex_position.x > 0 ∧
      fragment.vertex_position.y > 0 then
    (Color.new 255 100 80).lerp (Color.new 255 140 100)
      ((gas_giant_storm fragment uniforms - 0.5) * 2)
  else gas_giant_base_band_color fragment uniforms

/-- Embedding of gas_giant_shader (src/shaders.rs lines 615 to 671). -/
def gas_giant_shader (fragment : Fragment) (uniforms : Uniforms) : Color :=
  let band3_color := Color.new 180 130 90
  let final_color :=
    (gas_giant_pre_turbulence fragment uniforms).lerp band3_color
      (gas_giant_turbulence fragment uniforms * 0.3)
  final_color.mul fragment.intensity

/-- Embedding of fragment_shader (src/shaders.rs lines 44 to 58): the
dispatcher matching on the current body-kind selector. -/
def fragment_shader (mf : MathFns) (fragment : Fragment) (uniforms : Uniforms) : Color :=
  match uniforms.current_body with
  | .Sun => sun_shader fragment uniforms
  | .RockyPlanet => rocky_planet_shader fragment uniforms
  | .GasGiant => gas_giant_shader fragment uniforms
  | .CloudyPlanet => cloudy_planet_shader fragment uniforms
  | .RingedPlanet => ring_shader fragment uniforms
  | .IcePlanet => ice_planet_shader mf fragment uniforms
  | .ColorPlanet => colorful_planet_shader mf fragment uniforms
  | .Moon => moon_shader fragment uniforms
  | .OceanPlanet => ocean_planet_shader fragment uniforms
  | .AuroraPlanet => aurora_planet_shader mf fragment uniforms
  | .NaturePlanet => nature_planet_shader mf fragment uniforms

/-- The dispatch table of fragment_shader, one entry per body-kind
selector value, written as a function of the selector alone. -/
def selectedShader : CelestialBody → MathFns → Fragment → Uniforms → Color
  | .Sun => fun _ fragment uniforms => sun_shader fragment uniforms
  | .RockyPlanet => fun _ fragment uniforms => rocky_planet_shader fragment uniforms
  | .GasGiant => fun _ fragment uniforms => gas_giant_shader fragment uniforms
  | .CloudyPlanet => fun _ fragment uniforms => cloudy_planet_shader fragment uniforms
  | .RingedPlanet => fun _ fragment uniforms => ring_shader fragment uniforms
  | .IcePlanet => fun mf fragment uniforms => ice_planet_shader mf fragment uniforms
  | .ColorPlanet => fun mf fragment uniforms => colorful_planet_shader mf fragment uniforms
  | .Moon => fun _ fragment uniforms => moon_shader fragment uniforms
  | .OceanPlanet => fun _ fragment uniforms => ocean_planet_shader fragment uniforms
  | .AuroraPlanet => fun mf fragment uniforms => aurora_planet_shader mf fragment uniforms
  | .NaturePlanet => fun mf fragment uniforms => nature_planet_shader mf fragment uniforms

/-! Helper lemmas about the linear-algebra embedding. -/

/-- The 4x4 identity is idempotent under matrix product. -/
theorem Mat4.identity_mul_identity : Mat4.identity.mul Mat4.identity = Mat4.identity := by
  simp [Mat4.mul, Mat4.identity]

/-- The 4x4 identity acts as the identity on 4-vectors. -/
theorem Mat4.identity_mulVec (v : Vec4) : Mat4.identity.mulVec v = v := by
  cases v
  simp [Mat4.mulVec, Mat4.identity]

/-- Transposition preserves the 3x3 determinant. -/
theorem Mat3.det_transpose (m : Mat3) : m.transpose.det = m.det := by
  cases m
  simp only [Mat3.transpose, Mat3.det]
  ring

/-- The 3x3 identity acts as the identity on 3-vectors. -/
theorem Mat3.identity_mulVec3 (v : Vec3) : Mat3.identity.mulVec3 v = v := by
  cases v
  simp [Mat3.mulVec3, Mat3.identity]

/-! Concrete inputs used to instantiate the theorems below. -/

/-- A noise source that returns 0 for every 2D and 3D query. -/
def zeroNoise : NoiseSource where
  get_noise_2d := fun _ _ => 0
  get_noise_3d := fun _ _ _ => 0

/-- A noise source that returns 1 for every 2D and 3D query. -/
def oneNoise : NoiseSource where
  get_noise_2d := fun _ _ => 1
  get_noise_3d := fun _ _ _ => 1

/-- The all-zero 4x4 matrix; its upper-left 3x3 block is singular. -/
def zeroMat4 : Mat4 :=
  ⟨0, 0, 0, 0,
   0, 0, 0, 0,
   0, 0, 0, 0,
   0, 0, 0, 0⟩

/-- Uniforms with every transform equal to the identity, time 0, the zero
noise source, and the Sun selector. -/
def identityUniforms : Uniforms where
  model_matrix := Mat4.identity
  view_matrix := Mat4.identity
  projection_matrix := Mat4.identity
  viewport_matrix := Mat4.identity
  time := 0
  noise := zeroNoise
  current_body := CelestialBody.Sun

/-- Uniforms whose projection matrix is the zero matrix, so every clip
vector has homogeneous w equal to 0. -/
def zeroWUniforms : Uniforms :=
  { identityUniforms with projection_matrix := zeroMat4 }

/-- Uniforms whose model matrix is the zero matrix, so the upper-left 3x3
block is singular. -/
def singularModelUniforms : Uniforms :=
  { identityUniforms with model_matrix := zeroMat4 }

/-- Uniforms sharing the identity model matrix with identityUniforms but
differing in view matrix, time, noise source and body-kind selector. -/
def viewShiftUniforms : Uniforms :=
  { identityUniforms with
      view_matrix := zeroMat4
      time := 5
      noise := oneNoise
      current_body := CelestialBody.Moon }

/-- Uniforms with the constant-1 noise source and the cloudy-planet
selector. -/
def cloudUniforms : Uniforms :=
  { identityUniforms with noise := oneNoise
                          current_body := CelestialBody.CloudyPlanet }

/-- A concrete model-space vertex. -/
def sampleVertex : Vertex where
  position := ⟨1, 2, 3⟩
  normal := ⟨4, 5, 6⟩
  tex_coords := ⟨0.5, 0.5⟩
  color := Color.new 10 20 30
  transformed_position := none
  transformed_normal := ⟨0, 0, 0⟩

/-- A concrete fragment with unit intensity. -/
def sampleFragment : Fragment where
  vertex_position := ⟨1, 2, 3⟩
  intensity := 1

/-- A concrete fragment in the x nonpositive half space, with unit
intensity. -/
def gateFragment : Fragment where
  vertex_position := ⟨-1, 2, 3⟩
  intensity := 1

/-! Claim theorems. -/

/-- C1. Transform identity law: for every vertex (positions are exact
rationals, hence finite), if the model, view, projection and viewport
matrices of the uniforms are all the 4x4 identity, then the transformed
position computed by vertex_shader is exactly the input position,
componentwise (the divide is by w = 1 and succeeds, hence the some). -/
theorem transform_identity_law (v : Vertex) (u : Uniforms)
    (hm : u.model_matrix = Mat4.identity) (hv : u.view_matrix = Mat4.identity)
    (hp : u.projection_matrix = Mat4.identity)
    (hvp : u.viewport_matrix = Mat4.identity) :
    (vertex_shader v u).transformed_position = some v.position := by
  obtain ⟨⟨px, py, pz⟩, n, t, c, tp, tn⟩ := v
  simp [vertex_shader, clip_transform, hm, hv, hp, hvp,
    Mat4.identity_mul_identity, Mat4.identity_mulVec]

/-- Witness for C1 at a concrete vertex and the identity uniforms. -/
theorem transform_identity_law_witness :
    (vertex_shader sampleVertex identityUniforms).transformed_position =
      some sampleVertex.position :=
  transform_identity_law sampleVertex identityUniforms rfl rfl rfl rfl

/-- C2, counterexample: the claim that vertex_shader guards the zero-w
perspective divide is false. At this concrete input the clip-space w is 0,
yet the division is performed unconditionally (src/shaders.rs lines 19 to
25 have no branch on w) and the non-finite f32 result — modelled as
none — reaches the transformed position. -/
theorem zero_w_guard_counterexample :
    (clip_transform sampleVertex zeroWUniforms).w = 0 ∧
      (vertex_shader sampleVertex zeroWUniforms).transformed_position = none := by
  constructor
  · simp [clip_transform, zeroWUniforms, identityUniforms, zeroMat4,
      Mat4.identity, Mat4.mul, Mat4.mulVec, sampleVertex]
  · simp [vertex_shader, clip_transform, zeroWUniforms, identityUniforms,
      zeroMat4, Mat4.identity, Mat4.mul, Mat4.mulVec, sampleVertex]

/-- C2 (amended). Zero-w perspective divide: vertex_shader performs the
divide unconditionally; whenever the clip-space vector
projection * view * model * (position, 1) has w = 0, the non-finite result
of the division propagates into the transformed position (modelled as
none). No skip or clamp policy exists in the code. -/
theorem zero_w_divide_propagates (v : Vertex) (u : Uniforms)
    (h : (clip_transform v u).w = 0) :
    (vertex_shader v u).transformed_position = none := by
  simp [vertex_shader, h]

/-- Witness for the amended C2 at a concrete input with w = 0. -/
theorem zero_w_divide_propagates_witness :
    (vertex_shader sampleVertex zeroWUniforms).transformed_position = none :=
  zero_w_divide_propagates sampleVertex zeroWUniforms
    (by simp [clip_transform, zeroWUniforms, identityUniforms, zeroMat4,
      Mat4.identity, Mat4.mul, Mat4.mulVec, sampleVertex])

/-- C3. Dispatcher totality: fragment_shader is a total function, and for
every value of the body-kind selector it selects exactly the one per-body
shader given by the dispatch table, returning that shader's Color for
arbitrary fragment, time, noise and math inputs. -/
theorem fragment_shader_totality (mf : MathFns) (f : Fragment) (u : Uniforms) :
    fragment_shader mf f u = selectedShader u.current_body mf f u := by
  cases h : u.current_body <;> simp [fragment_shader, selectedShader, h]

/-- C4. Normal fallback: when the upper-left 3x3 block of the model matrix
is singular (zero determinant), try_inverse fails, vertex_shader
substitutes the 3x3 identity as the normal matrix, and the transformed
normal equals the input normal unchanged. -/
theorem normal_fallback_identity (v : Vertex) (u : Uniforms)
    (h : (mat4_to_mat3 u.model_matrix).det = 0) :
    (vertex_shader v u).transformed_normal = v.normal := by
  simp [vertex_shader, Mat3.try_inverse, Mat3.det_transpose, h,
    Mat3.identity_mulVec3]

/-- Witness for C4 at a concrete vertex and an all-zero model matrix. -/
theorem normal_fallback_identity_witness :
    (vertex_shader sampleVertex singularModelUniforms).transformed_normal =
      sampleVertex.normal :=
  normal_fallback_identity sampleVertex singularModelUniforms
    (by simp [mat4_to_mat3, Mat3.det, singularModelUniforms, identityUniforms,
      zeroMat4])

/-- C5. Rocky-planet zero-noise baseline: with unit intensity and a noise
source returning 0 for all 3D queries, the crater test (0 is not greater
than 0.7) and the terrain test (0 is not greater than 0.3) both fail, the
desert base color is selected, the dust overlay blend factor is 0, and the
shader returns exactly the desert palette color (180, 80, 20). -/
theorem rocky_zero_noise_baseline (f : Fragment) (u : Uniforms)
    (hi : f.intensity = 1) (h3 : ∀ x y z, u.noise.get_noise_3d x y z = 0) :
    rocky_planet_shader f u = Color.new 180 80 20 := by
  simp only [rocky_planet_shader, h3, hi, abs_zero]
  norm_num [Color.lerp, Color.mul, Color.new, clampChan]

/-- Witness for C5 at a concrete unit-intensity fragment and the zero
noise source. -/
theorem rocky_zero_noise_baseline_witness :
    rocky_planet_shader sampleFragment identityUniforms = Color.new 180 80 20 :=
  rocky_zero_noise_baseline sampleFragment identityUniforms rfl
    (fun _ _ _ => rfl)

/-- C6. Ringed-planet zero-noise baseline: with a noise source returning 0
for all 2D and 3D queries the ring pattern is 0, the else branch (pure
edge color (100, 80, 60)) is taken, and the output is that color scaled by
the alpha (0 * 0.5 + 0.5) * intensity = 0.5 * intensity; in particular for
unit intensity the output is the edge color scaled by 0.5. -/
theorem ring_zero_noise_baseline (f : Fragment) (u : Uniforms)
    (h2 : ∀ x y, u.noise.get_noise_2d x y = 0)
    (h3 : ∀ x y z, u.noise.get_noise_3d x y z = 0) :
    ring_shader f u = (Color.new 100 80 60).mul (0.5 * f.intensity) ∧
      (f.intensity = 1 → ring_shader f u = (Color.new 100 80 60).mul 0.5) := by
  have h : ring_shader f u = (Color.new 100 80 60).mul (0.5 * f.intensity) := by
    simp only [ring_shader, h2, h3, abs_zero]
    norm_num
  refine ⟨h, fun hi => ?_⟩
  rw [h, hi, mul_one]

/-- Witness for C6 at a concrete unit-intensity fragment and the zero
noise source. -/
theorem ring_zero_noise_baseline_witness :
    ring_shader sampleFragment identityUniforms = (Color.new 100 80 60).mul 0.5 :=
  (ring_zero_noise_baseline sampleFragment identityUniforms
    (fun _ _ => rfl) (fun _ _ _ => rfl)).2 rfl

/-- C7. Gas-giant storm gating: outside the open quadrant with positive x
and positive y — that is, whenever x is nonpositive or y is
nonpositive — the color before the final turbulence blend is exactly the
base band color of the threshold ladder (the storm colors contribute
nothing), and the shader output is that base band color blended with the
third band color by the turbulence factor, scaled by the intensity. -/
theorem gas_giant_storm_gating (f : Fragment) (u : Uniforms)
    (h : f.vertex_position.x ≤ 0 ∨ f.vertex_position.y ≤ 0) :
    gas_giant_pre_turbulence f u = gas_giant_base_band_color f u ∧
      gas_giant_shader f u =
        ((gas_giant_base_band_color f u).lerp (Color.new 180 130 90)
          (gas_giant_turbulence f u * 0.3)).mul f.intensity := by
  have hpre : gas_giant_pre_turbulence f u = gas_giant_base_band_color f u := by
    unfold gas_giant_pre_turbulence
    rcases h with h | h
    · rw [if_neg]
      rintro ⟨-, hx, -⟩
      exact absurd hx (not_lt.mpr h)
    · rw [if_neg]
      rintro ⟨-, -, hy⟩
      exact absurd hy (not_lt.mpr h)
  refine ⟨hpre, ?_⟩
  simp only [gas_giant_shader, hpre]

/-- Witness for C7 at a concrete fragment with nonpositive x. -/
theorem gas_giant_storm_gating_witness :
    gas_giant_pre_turbulence gateFragment identityUniforms =
      gas_giant_base_band_color gateFragment identityUniforms ∧
      gas_giant_shader gateFragment identityUniforms =
        ((gas_giant_base_band_color gateFragment identityUniforms).lerp
          (Color.new 180 130 90)
          (gas_giant_turbulence gateFragment identityUniforms * 0.3)).mul
          gateFragment.intensity :=
  gas_giant_storm_gating gateFragment identityUniforms
    (Or.inl (by norm_num [gateFragment]))

/-- C8. Frame property of the vertex transformer: the Vertex returned by
vertex_shader carries the original position, normal, texture coordinates
and color unchanged; only the two derived fields are newly computed. -/
theorem vertex_shader_frame (v : Vertex) (u : Uniforms) :
    (vertex_shader v u).position = v.position ∧
      (vertex_shader v u).normal = v.normal ∧
      (vertex_shader v u).tex_coords = v.tex_coords ∧
      (vertex_shader v u).color = v.color :=
  ⟨rfl, rfl, rfl, rfl⟩

/-- C9. Overlay monotonicity for the cloudy-planet shader: past the 0.3
threshold the shader blends the base color toward the cloud color with
weight (clouds - 0.3) * 2; that weight is strictly increasing in the
gating cloud sample, and it tends to 0 as the sample approaches the 0.3
threshold from above, so there is no discontinuous jump at the
threshold. -/
theorem cloudy_overlay_monotonicity :
    (∀ (f : Fragment) (u : Uniforms), cloudy_clouds f u > 0.3 →
      cloudy_planet_shader f u =
        ((cloudy_base_color f u).lerp (Color.new 255 255 255)
          (cloudWeight (cloudy_clouds f u))).mul f.intensity) ∧
      (∀ c1 c2 : ℚ, 0.3 < c1 → c1 < c2 → cloudWeight c1 < cloudWeight c2) ∧
      (∀ ε : ℚ, 0 < ε → ∃ δ : ℚ, 0 < δ ∧
        ∀ c : ℚ, 0.3 < c → c < 0.3 + δ → cloudWeight c < ε) := by
  refine ⟨?_, ?_, ?_⟩
  · intro f u h
    simp only [cloudy_planet_shader]
    rw [if_pos h]
  · intro c1 c2 _ h
    simp only [cloudWeight]
    linarith
  · intro ε hε
    refine ⟨ε / 2, by linarith, ?_⟩
    intro c hc1 hc2
    simp only [cloudWeight]
    linarith

/-- Witness for C9: the overlay equation at a concrete fragment whose
cloud sample is 1, strict monotonicity at 0.4 and 0.5, and a concrete
threshold bound for epsilon 1. -/
theorem cloudy_overlay_monotonicity_witness :
    cloudy_planet_shader sampleFragment cloudUniforms =
      ((cloudy_base_color sampleFragment cloudUniforms).lerp
        (Color.new 255 255 255)
        (cloudWeight (cloudy_clouds sampleFragment cloudUniforms))).mul
        sampleFragment.intensity ∧
      cloudWeight 0.4 < cloudWeight 0.5 ∧
      ∃ δ : ℚ, 0 < δ ∧ ∀ c : ℚ, 0.3 < c → c < 0.3 + δ → cloudWeight c < 1 :=
  ⟨cloudy_overlay_monotonicity.1 sampleFragment cloudUniforms
    (by norm_num [cloudy_clouds, cloudUniforms, identityUniforms, oneNoise,
      sampleFragment]),
   cloudy_overlay_monotonicity.2.1 0.4 0.5 (by norm_num) (by norm_num),
   cloudy_overlay_monotonicity.2.2 1 (by norm_num)⟩

/-- C10. Noninterference of the transformed normal: two uniforms that
agree on the model matrix but may differ in view, projection and viewport
matrices, time, noise source and body-kind selector produce the same
transformed normal for every vertex — the transformed normal is a
function of the model matrix and the input normal only. -/
theorem transformed_normal_noninterference (v : Vertex) (u1 u2 : Uniforms)
    (h : u1.model_matrix = u2.model_matrix) :
    (vertex_shader v u1).transformed_normal =
      (vertex_shader v u2).transformed_normal := by
  simp only [vertex_shader, h]

/-- Witness for C10 at a concrete vertex and two uniforms sharing the
model matrix but differing in view matrix, time, noise and selector. -/
theorem transformed_normal_noninterference_witness :
    (vertex_shader sampleVertex identityUniforms).transformed_normal =
      (vertex_shader sampleVertex viewShiftUniforms).transformed_normal :=
  transformed_normal_noninterference sampleVertex identityUniforms
    viewShiftUniforms rfl

end Shaders
